import Mathlib

/-!
Verification of the Flask health-check service (`src/app/app.py`).

The program is an HTTP server holding two process-wide boolean flags,
`app_ready` and `app_alive`, with probe endpoints that map the flags to
an HTTP status code plus JSON body, toggle endpoints that flip one flag,
an index page, and an access-logging `after_request` hook.

We embed the program shallowly: the two globals become an explicit
`AppState` record threaded through every handler; `jsonify` payloads
become a small inductive `Json` type; the fresh timestamp produced by
`datetime.now()` in each handler is an external input and is passed in
as a `String` parameter.
-/

/-- A minimal JSON value type, sufficient for the bodies built by
`jsonify` in `app.py` (objects whose values are strings or booleans). -/
inductive Json where
  | str (s : String) : Json
  | bool (b : Bool) : Json
  | obj (fields : List (String × Json)) : Json

/-- Look up a top-level field of a JSON object (first match, as in a
Python dict built from distinct literal keys). -/
def Json.get : Json → String → Option Json
  | .obj fields, k => (fields.find? (fun p => p.1 = k)).map Prod.snd
  | _, _ => none

/-- An HTTP response as produced by a route handler: a JSON body and a
numeric status code (Flask's `jsonify(...)` alone defaults to 200). -/
structure HttpResponse where
  body : Json
  statusCode : Nat

/-- The process-wide mutable state of `app.py`: the two module-level
globals `app_ready` (line 21) and `app_alive` (line 22). -/
structure AppState where
  app_ready : Bool
  app_alive : Bool
deriving DecidableEq, Repr

/-- The initial state at process startup: `app_ready = True`,
`app_alive = True` (app.py lines 21-22). -/
def initialState : AppState := { app_ready := true, app_alive := true }

/-- `readiness_probe` (app.py lines 42-56), route `/healthz`.
Reads `app_ready`; never writes state, so it is a pure function of the
state and the fresh timestamp `ts` (`datetime.now().isoformat()`).
The returned state is the unchanged input state. -/
def readiness_probe (s : AppState) (ts : String) : AppState × HttpResponse :=
  if s.app_ready then
    (s, { body := Json.obj
            [ ("status", Json.str "ready"),
              ("timestamp", Json.str ts),
              ("message", Json.str "Application is ready to serve traffic") ],
          statusCode := 200 })
  else
    (s, { body := Json.obj
            [ ("status", Json.str "not ready"),
              ("timestamp", Json.str ts),
              ("message", Json.str "Application is not ready to serve traffic") ],
          statusCode := 503 })

/-- `liveness_probe` (app.py lines 58-72), route `/failcheck`.
Reads `app_alive`; never writes state. -/
def liveness_probe (s : AppState) (ts : String) : AppState × HttpResponse :=
  if s.app_alive then
    (s, { body := Json.obj
            [ ("status", Json.str "alive"),
              ("timestamp", Json.str ts),
              ("message", Json.str "Application is alive and healthy") ],
          statusCode := 200 })
  else
    (s, { body := Json.obj
            [ ("status", Json.str "dead"),
              ("timestamp", Json.str ts),
              ("message", Json.str "Application is not responding properly") ],
          statusCode := 500 })

/-- `toggle_readiness` (app.py lines 74-83), route `/toggle-readiness`.
Sets `app_ready = not app_ready`, then builds the JSON confirmation
from the NEW value. `jsonify` without an explicit code responds 200. -/
def toggle_readiness (s : AppState) : AppState × HttpResponse :=
  let s' : AppState := { s with app_ready := !s.app_ready }
  let status : String := if s'.app_ready then "ready" else "not ready"
  (s', { body := Json.obj
           [ ("message", Json.str ("Readiness toggled to: " ++ status)),
             ("ready", Json.bool s'.app_ready) ],
         statusCode := 200 })

/-- `toggle_liveness` (app.py lines 85-94), route `/toggle-liveness`.
Sets `app_alive = not app_alive`, then builds the JSON confirmation
from the NEW value. -/
def toggle_liveness (s : AppState) : AppState × HttpResponse :=
  let s' : AppState := { s with app_alive := !s.app_alive }
  let status : String := if s'.app_alive then "alive" else "dead"
  (s', { body := Json.obj
           [ ("message", Json.str ("Liveness toggled to: " ++ status)),
             ("alive", Json.bool s'.app_alive) ],
         statusCode := 200 })

/-- The arguments `index` (app.py lines 35-40) passes to the external
templating collaborator `render_template("index.html", ...)`. -/
structure IndexPage where
  template : String
  current_time : String
  app_status : String
deriving DecidableEq, Repr

/-- `index` (app.py lines 35-40), route `/`. Reads no application
state and writes none; the rendered page depends only on the current
wall-clock time `now` (`datetime.now().strftime(...)`). -/
def index (s : AppState) (now : String) : AppState × IndexPage :=
  (s, { template := "index.html", current_time := now, app_status := "Running" })

/-- The request fields consulted by the `log_request` hook. -/
structure RequestInfo where
  remote_addr : String
  method : String
  path : String
  full_path : String
  query_string : String
  referer : Option String
  user_agent : Option String
deriving DecidableEq, Repr

/-- A Flask response as seen by the `after_request` hook: the fields
`log_request` reads, plus the headers and body it delivers. -/
structure WireResponse where
  status_code : Nat
  content_length : Option Nat
  headers : List (String × String)
  body : String
deriving DecidableEq, Repr

/-- The access-log line built by `log_request` (app.py lines 27-32),
with `now` standing for `datetime.now().strftime("%d/%b/%Y:%H:%M:%S %z")`.
Python's `response.content_length or "-"` yields `"-"` for both `None`
and `0` (falsy values). -/
def logLine (req : RequestInfo) (resp : WireResponse) (now : String) : String :=
  let pathPart := if req.query_string ≠ "" then req.full_path else req.path
  let lenPart := match resp.content_length with
    | some n => if n = 0 then "-" else toString n
    | none => "-"
  req.remote_addr ++ " - - [" ++ now ++ "] " ++
    "\"" ++ req.method ++ " " ++ pathPart ++ " HTTP/1.1\" " ++
    toString resp.status_code ++ " " ++ lenPart ++ " " ++
    "\"" ++ req.referer.getD "-" ++ "\" \"" ++ req.user_agent.getD "-" ++ "\""

/-- `log_request` (app.py lines 24-33), the `after_request` hook.
It emits one access-log line to the logging sink and returns the
response object; it touches no application state. The emitted line is
the middle component. -/
def log_request (s : AppState) (req : RequestInfo) (resp : WireResponse)
    (now : String) : AppState × String × WireResponse :=
  (s, logLine req resp now, resp)

/-- `n` successive calls of `toggle_readiness`, keeping only the state
(the bodies of intermediate responses are discarded). -/
def iterToggleReadiness : Nat → AppState → AppState
  | 0, s => s
  | n + 1, s => iterToggleReadiness n (toggle_readiness s).1

/-- `n` successive calls of `toggle_liveness`, keeping only the state. -/
def iterToggleLiveness : Nat → AppState → AppState
  | 0, s => s
  | n + 1, s => iterToggleLiveness n (toggle_liveness s).1

/- ------------------------------------------------------------------ -/
/- Claims                                                              -/
/- ------------------------------------------------------------------ -/

/-- C1: for every state, GET `/healthz` returns 200 with body fields
`status = "ready"` and `message = "Application is ready to serve
traffic"` when `app_ready` is true, and 503 with `status = "not ready"`
and `message = "Application is not ready to serve traffic"` when it is
false; the body always carries the `timestamp` field. -/
theorem C1_readiness_probe_contract (s : AppState) (ts : String) :
    let resp := (readiness_probe s ts).2
    resp.statusCode = (if s.app_ready then 200 else 503) ∧
    resp.body.get "status" =
      some (Json.str (if s.app_ready then "ready" else "not ready")) ∧
    resp.body.get "message" =
      some (Json.str (if s.app_ready
        then "Application is ready to serve traffic"
        else "Application is not ready to serve traffic")) ∧
    resp.body.get "timestamp" = some (Json.str ts) := by
  cases h : s.app_ready <;>
    simp [readiness_probe, h, Json.get, List.find?]

/-- C2: for every state, GET `/failcheck` returns 200 with
`status = "alive"` and `message = "Application is alive and healthy"`
when `app_alive` is true, and 500 with `status = "dead"` and
`message = "Application is not responding properly"` when it is false;
the body always carries the `timestamp` field. -/
theorem C2_liveness_probe_contract (s : AppState) (ts : String) :
    let resp := (liveness_probe s ts).2
    resp.statusCode = (if s.app_alive then 200 else 500) ∧
    resp.body.get "status" =
      some (Json.str (if s.app_alive then "alive" else "dead")) ∧
    resp.body.get "message" =
      some (Json.str (if s.app_alive
        then "Application is alive and healthy"
        else "Application is not responding properly")) ∧
    resp.body.get "timestamp" = some (Json.str ts) := by
  cases h : s.app_alive <;>
    simp [liveness_probe, h, Json.get, List.find?]

/-- C3: GET `/toggle-readiness` flips `app_ready`, responds 200, and the
body's `ready` field equals the new value while `message` reads
"Readiness toggled to: ready" or "... not ready" according to that new
value. -/
theorem C3_toggle_readiness_contract (s : AppState) :
    let out := toggle_readiness s
    out.1.app_ready = !s.app_ready ∧
    out.2.statusCode = 200 ∧
    out.2.body.get "ready" = some (Json.bool (!s.app_ready)) ∧
    out.2.body.get "message" =
      some (Json.str (if !s.app_ready
        then "Readiness toggled to: ready"
        else "Readiness toggled to: not ready")) := by
  cases h : s.app_ready <;>
    simp [toggle_readiness, h, Json.get, List.find?]

/-- C4: GET `/toggle-liveness` flips `app_alive`, responds 200, and the
body's `alive` field equals the new value while `message` reads
"Liveness toggled to: alive" or "Liveness toggled to: dead" according
to that new value. -/
theorem C4_toggle_liveness_contract (s : AppState) :
    let out := toggle_liveness s
    out.1.app_alive = !s.app_alive ∧
    out.2.statusCode = 200 ∧
    out.2.body.get "alive" = some (Json.bool (!s.app_alive)) ∧
    out.2.body.get "message" =
      some (Json.str (if !s.app_alive
        then "Liveness toggled to: alive"
        else "Liveness toggled to: dead")) := by
  cases h : s.app_alive <;>
    simp [toggle_liveness, h, Json.get, List.find?]

/-- C5: the two state cells are independent: `/toggle-readiness` leaves
`app_alive` unchanged and `/toggle-liveness` leaves `app_ready`
unchanged, for every state. -/
theorem C5_toggles_independent (s : AppState) :
    (toggle_readiness s).1.app_alive = s.app_alive ∧
    (toggle_liveness s).1.app_ready = s.app_ready := by
  exact ⟨rfl, rfl⟩

/-- C6: after `n` readiness toggles from a state with `app_ready = b`,
the flag reads `!b` when `n` is odd and `b` when `n` is even, and the
analogous statement holds for `n` liveness toggles. -/
theorem C6_toggle_parity (s : AppState) (n : Nat) :
    (iterToggleReadiness n s).app_ready =
      (if n % 2 = 1 then !s.app_ready else s.app_ready) ∧
    (iterToggleLiveness n s).app_alive =
      (if n % 2 = 1 then !s.app_alive else s.app_alive) := by
  induction n generalizing s with
  | zero => simp [iterToggleReadiness, iterToggleLiveness]
  | succ n ih =>
    have hr := (ih (toggle_readiness s).1).1
    have hl := (ih (toggle_liveness s).1).2
    constructor
    · rw [iterToggleReadiness, hr]
      rcases Nat.even_or_odd n with he | ho
      · have h1 : n % 2 = 0 := Nat.even_iff.mp he
        have h2 : (n + 1) % 2 = 1 := by omega
        simp [h1, h2, toggle_readiness]
      · have h1 : n % 2 = 1 := Nat.odd_iff.mp ho
        have h2 : (n + 1) % 2 = 0 := by omega
        simp [h1, h2, toggle_readiness]
    · rw [iterToggleLiveness, hl]
      rcases Nat.even_or_odd n with he | ho
      · have h1 : n % 2 = 0 := Nat.even_iff.mp he
        have h2 : (n + 1) % 2 = 1 := by omega
        simp [h1, h2, toggle_liveness]
      · have h1 : n % 2 = 1 := Nat.odd_iff.mp ho
        have h2 : (n + 1) % 2 = 0 := by omega
        simp [h1, h2, toggle_liveness]

/-- C7: at startup both flags are true, so on a fresh process
`/healthz` answers 200 with `status = "ready"` and `/failcheck` answers
200 with `status = "alive"`. -/
theorem C7_initial_state (ts : String) :
    initialState.app_ready = true ∧
    initialState.app_alive = true ∧
    (readiness_probe initialState ts).2.statusCode = 200 ∧
    (readiness_probe initialState ts).2.body.get "status" =
      some (Json.str "ready") ∧
    (liveness_probe initialState ts).2.statusCode = 200 ∧
    (liveness_probe initialState ts).2.body.get "status" =
      some (Json.str "alive") := by
  simp [initialState, readiness_probe, liveness_probe, Json.get, List.find?]

/-- C8: the read endpoints `/healthz`, `/failcheck` and `/` never
mutate the state: the state component of their result is the input
state, for every state and timestamp. -/
theorem C8_read_endpoints_pure (s : AppState) (ts now : String) :
    (readiness_probe s ts).1 = s ∧
    (liveness_probe s ts).1 = s ∧
    (index s now).1 = s := by
  refine ⟨?_, ?_, rfl⟩ <;> cases h : s.app_ready <;> cases h' : s.app_alive <;>
    simp [readiness_probe, liveness_probe, h, h']

/-- C9: probe responses are deterministic in the state apart from the
timestamp: for a fixed state, two invocations (with possibly different
fresh timestamps, and no other input consulted) agree on status code,
`status` field and `message` field, for both probes. -/
theorem C9_probes_deterministic (s : AppState) (ts₁ ts₂ : String) :
    ((readiness_probe s ts₁).2.statusCode = (readiness_probe s ts₂).2.statusCode ∧
     (readiness_probe s ts₁).2.body.get "status" =
       (readiness_probe s ts₂).2.body.get "status" ∧
     (readiness_probe s ts₁).2.body.get "message" =
       (readiness_probe s ts₂).2.body.get "message") ∧
    ((liveness_probe s ts₁).2.statusCode = (liveness_probe s ts₂).2.statusCode ∧
     (liveness_probe s ts₁).2.body.get "status" =
       (liveness_probe s ts₂).2.body.get "status" ∧
     (liveness_probe s ts₁).2.body.get "message" =
       (liveness_probe s ts₂).2.body.get "message") := by
  cases h : s.app_ready <;> cases h' : s.app_alive <;>
    simp [readiness_probe, liveness_probe, h, h', Json.get, List.find?]

/-- C10: the `after_request` hook returns the response object unchanged
(status code, headers and body delivered to the client are exactly the
handler's) and leaves both state cells untouched; its only output is
the access-log line. -/
theorem C10_log_request_identity (s : AppState) (req : RequestInfo)
    (resp : WireResponse) (now : String) :
    (log_request s req resp now).2.2 = resp ∧
    (log_request s req resp now).1 = s := by
  exact ⟨rfl, rfl⟩
